import Mathlib

/-!
Verification of the connectivity health monitor core of
`legend-state-supabase-sync`: the channel monitor state machine
(`src/channel-monitor.ts`), the network monitor (`src/network-monitor.ts`),
the poller (`src/poller.ts`) and the supabase query manager
(`src/supabase-query-manager.ts`), shallowly embedded in Lean.
-/

/-- Channel statuses, from the `ChannelStatus` string enum. -/
inductive ChannelStatus
  | INITIAL
  | SUBSCRIBED
  | CLOSED
  | CHANNEL_ERROR
  | TIMED_OUT
deriving DecidableEq

/-- The string value of each `ChannelStatus` enum member. -/
def ChannelStatus.str : ChannelStatus → String
  | .INITIAL => "INITIAL"
  | .SUBSCRIBED => "SUBSCRIBED"
  | .CLOSED => "CLOSED"
  | .CHANNEL_ERROR => "CHANNEL_ERROR"
  | .TIMED_OUT => "TIMED_OUT"

/-- Event type of a realtime payload (`'INSERT' | 'UPDATE' | 'DELETE'`). -/
inductive RealtimeEventType
  | INSERT
  | UPDATE
  | DELETE
deriving DecidableEq

/-- The `RealtimePayload` interface.  The `new`/`old` records are opaque
`Record<string, unknown>` values; they are stored verbatim and never
inspected, modelled here as association lists of string fields. -/
structure RealtimePayload where
  commit_timestamp : String
  errors : Option (List String)
  eventType : RealtimeEventType
  newRecord : Option (List (String × String))
  oldRecord : Option (List (String × String))
  schema : String
  table : String
deriving DecidableEq

/-- `LastMessageInfo`: the most recent payload plus local receipt time. -/
structure LastMessageInfo where
  message : RealtimePayload
  receivedAt : Nat
deriving DecidableEq

/-- The `code` field of a `ChannelError`
(`ChannelStatus.CHANNEL_ERROR | ChannelStatus.TIMED_OUT | 'UNKNOWN'`). -/
inductive ChannelErrorCode
  | CHANNEL_ERROR
  | TIMED_OUT
  | UNKNOWN
deriving DecidableEq

/-- The `ChannelError` class: a message plus an error-kind code. -/
structure ChannelError where
  message : String
  code : ChannelErrorCode
deriving DecidableEq

/-- The runtime shape of `ChannelMonitor.state$`: three fields, replaced by
`assign` calls.  (The TypeScript type is a discriminated union, but the
runtime value is this record.) -/
structure ChannelMonitorState where
  status : ChannelStatus
  lastMessage : Option LastMessageInfo
  error : Option ChannelError
deriving DecidableEq

/-- The error-code the status-change handler passes to `ChannelError`:
the status itself for the two error statuses. -/
def ChannelStatus.errorCode : ChannelStatus → ChannelErrorCode
  | .CHANNEL_ERROR => ChannelErrorCode.CHANNEL_ERROR
  | .TIMED_OUT => ChannelErrorCode.TIMED_OUT
  | _ => ChannelErrorCode.UNKNOWN

/-- Initial value of `state$` at monitor construction. -/
def ChannelMonitor.initialState : ChannelMonitorState :=
  { status := ChannelStatus.INITIAL, lastMessage := none, error := none }

/-- The status-change callback registered by `startMonitoring` via
`channel.subscribe`.  It assigns all three fields, so the previous state
is irrelevant. -/
def ChannelMonitor.onStatusChange (status : ChannelStatus) : ChannelMonitorState :=
  if status = ChannelStatus.CHANNEL_ERROR ∨ status = ChannelStatus.TIMED_OUT then
    { status := status, lastMessage := none,
      error := some { message := "Channel status: " ++ status.str,
                      code := status.errorCode } }
  else
    { status := status, lastMessage := none, error := none }

/-- The `postgres_changes` data-event callback registered by
`startMonitoring` via `channel.on`.  It assigns only `lastMessage` and
`error`, leaving `status` untouched; `now` is the `Date.now()` value read
inside the callback. -/
def ChannelMonitor.onDataEvent (st : ChannelMonitorState) (payload : RealtimePayload)
    (now : Nat) : ChannelMonitorState :=
  { st with lastMessage := some { message := payload, receivedAt := now },
            error := none }

/-- The initial reconciliation performed at the end of `startMonitoring`
from the synchronously read `channel.state`. -/
def ChannelMonitor.initialReconcile (status : ChannelStatus) : ChannelMonitorState :=
  if status = ChannelStatus.CHANNEL_ERROR ∨ status = ChannelStatus.TIMED_OUT then
    { status := status, lastMessage := none,
      error := some { message := "Initial channel status: " ++ status.str,
                      code := status.errorCode } }
  else
    { status := status, lastMessage := none, error := none }

/-- One push callback delivered to the monitor after `startMonitoring`. -/
inductive ChannelEvent
  | statusChange (status : ChannelStatus)
  | dataEvent (payload : RealtimePayload) (now : Nat)
deriving DecidableEq

/-- Applying one delivered callback to the monitor state. -/
def ChannelMonitor.step (st : ChannelMonitorState) : ChannelEvent → ChannelMonitorState
  | ChannelEvent.statusChange s => ChannelMonitor.onStatusChange s
  | ChannelEvent.dataEvent p t => ChannelMonitor.onDataEvent st p t

/-- Applying a sequence of delivered callbacks in order. -/
def ChannelMonitor.run (st : ChannelMonitorState) (evs : List ChannelEvent) :
    ChannelMonitorState :=
  evs.foldl ChannelMonitor.step st

/-- Network connection type enumeration (`NetworkConnectionType`). -/
inductive NetworkConnectionType
  | unknown
  | none
  | wifi
  | cellular
  | bluetooth
  | ethernet
  | wimax
  | vpn
  | other
deriving DecidableEq

/-- The `NetworkState` shape held by the network monitor observable. -/
structure NetworkState where
  isConnected : Bool
  connectionType : NetworkConnectionType
  isInternetReachable : Option Bool
deriving DecidableEq

/-- `computeChannelHealth`: the derived health boolean, evaluated at read
time `now` (the `Date.now()` inside the computed body). -/
def computeChannelHealth (channelState : ChannelMonitorState)
    (networkState : NetworkState) (now : Nat) : Bool :=
  let isSubscribed := decide (channelState.status = ChannelStatus.SUBSCRIBED)
  let hasRecentActivity :=
    match channelState.lastMessage with
    | some lm => decide ((now : Int) - (lm.receivedAt : Int) < 30000)
    | Option.none => false
  isSubscribed
    && (networkState.isConnected || decide (networkState.isInternetReachable ≠ some false))
    && hasRecentActivity

/-- Claim C1: the health signal is true iff the channel status is
SUBSCRIBED, the network is connected or internet reachability is not
known-false, and a last message exists whose receipt time is strictly
less than 30000 ms before `now`. -/
theorem computeChannelHealth_iff (channelState : ChannelMonitorState)
    (networkState : NetworkState) (now : Nat) :
    computeChannelHealth channelState networkState now = true ↔
      (channelState.status = ChannelStatus.SUBSCRIBED ∧
        (networkState.isConnected = true ∨ networkState.isInternetReachable ≠ some false) ∧
        ∃ lm, channelState.lastMessage = some lm ∧
          (now : Int) - (lm.receivedAt : Int) < 30000) := by
  unfold computeChannelHealth
  cases h : channelState.lastMessage with
  | none =>
    simp [h]
  | some lm =>
    simp only [h, Bool.and_eq_true, Bool.or_eq_true, decide_eq_true_eq,
      Option.some.injEq]
    constructor
    · rintro ⟨⟨hs, hn⟩, hr⟩
      exact ⟨hs, hn, lm, rfl, hr⟩
    · rintro ⟨hs, hn, lm2, hlm, hr⟩
      cases hlm
      exact ⟨⟨hs, hn⟩, hr⟩

/-- A concrete realtime payload used in counterexample runs. -/
def samplePayload : RealtimePayload :=
  { commit_timestamp := "2023-01-01T00:00:00Z", errors := none,
    eventType := RealtimeEventType.INSERT, newRecord := none,
    oldRecord := none, schema := "public", table := "t" }

/-- Claim C2 (counterexample): after `startMonitoring` with initial channel
status INITIAL, the callback sequence [statusChange CLOSED, dataEvent] ends
in a state whose status is CLOSED yet whose lastMessage is non-null, so
lastMessage being non-null does not imply status = SUBSCRIBED. -/
theorem channelMonitor_lastMessage_cex :
    (ChannelMonitor.run (ChannelMonitor.initialReconcile ChannelStatus.INITIAL)
        [ChannelEvent.statusChange ChannelStatus.CLOSED,
         ChannelEvent.dataEvent samplePayload 5]).status = ChannelStatus.CLOSED ∧
    (ChannelMonitor.run (ChannelMonitor.initialReconcile ChannelStatus.INITIAL)
        [ChannelEvent.statusChange ChannelStatus.CLOSED,
         ChannelEvent.dataEvent samplePayload 5]).lastMessage ≠ none := by
  constructor
  · rfl
  · intro h
    simp [ChannelMonitor.run, ChannelMonitor.step, ChannelMonitor.onDataEvent,
      ChannelMonitor.onStatusChange, ChannelMonitor.initialReconcile] at h

/-- Claim C2 (amended): every status-change callback, in particular every
transition away from SUBSCRIBED, leaves lastMessage null; the original
converse (lastMessage non-null only when SUBSCRIBED) fails because a
data-event callback sets lastMessage in any status. -/
theorem channelMonitor_statusChange_clears_lastMessage (st : ChannelMonitorState)
    (s : ChannelStatus) :
    (ChannelMonitor.step st (ChannelEvent.statusChange s)).lastMessage = none := by
  unfold ChannelMonitor.step ChannelMonitor.onStatusChange
  by_cases h : s = ChannelStatus.CHANNEL_ERROR ∨ s = ChannelStatus.TIMED_OUT <;>
    simp [h]

/-- Claim C4: a status-change callback always clears lastMessage; for
CHANNEL_ERROR and TIMED_OUT it produces an error whose code is that status,
and for any other status it produces a null error. -/
theorem channelMonitor_status_transition_spec (st : ChannelMonitorState)
    (s : ChannelStatus) :
    (ChannelMonitor.step st (ChannelEvent.statusChange s)).status = s ∧
    (ChannelMonitor.step st (ChannelEvent.statusChange s)).lastMessage = none ∧
    (s = ChannelStatus.CHANNEL_ERROR →
      ∃ e, (ChannelMonitor.step st (ChannelEvent.statusChange s)).error = some e ∧
        e.code = ChannelErrorCode.CHANNEL_ERROR) ∧
    (s = ChannelStatus.TIMED_OUT →
      ∃ e, (ChannelMonitor.step st (ChannelEvent.statusChange s)).error = some e ∧
        e.code = ChannelErrorCode.TIMED_OUT) ∧
    (¬(s = ChannelStatus.CHANNEL_ERROR ∨ s = ChannelStatus.TIMED_OUT) →
      (ChannelMonitor.step st (ChannelEvent.statusChange s)).error = none) := by
  unfold ChannelMonitor.step ChannelMonitor.onStatusChange
  cases s <;> simp [ChannelStatus.errorCode]

/-- Claim C4 witness: concrete instantiation at status TIMED_OUT. -/
theorem channelMonitor_status_transition_spec_witness :
    ∃ e, (ChannelMonitor.step ChannelMonitor.initialState
        (ChannelEvent.statusChange ChannelStatus.TIMED_OUT)).error = some e ∧
      e.code = ChannelErrorCode.TIMED_OUT :=
  (channelMonitor_status_transition_spec ChannelMonitor.initialState
    ChannelStatus.TIMED_OUT).2.2.2.1 rfl

/-- Claim C6 (counterexample): at status CHANNEL_ERROR the initial
reconciliation and the status-change callback produce different states:
the error messages differ ("Initial channel status: ..." versus
"Channel status: ..."). -/
theorem initialReconcile_vs_statusChange_cex :
    ChannelMonitor.initialReconcile ChannelStatus.CHANNEL_ERROR ≠
      ChannelMonitor.onStatusChange ChannelStatus.CHANNEL_ERROR := by
  decide

/-- Claim C6 (amended): for every status the initial reconciliation agrees
with the status-change callback on status, lastMessage and the error's
code; for non-error statuses the states are fully equal, and for
CHANNEL_ERROR/TIMED_OUT only the error message differs, being prefixed
"Initial channel status: " instead of "Channel status: ". -/
theorem initialReconcile_matches_statusChange (s : ChannelStatus) :
    (ChannelMonitor.initialReconcile s).status =
      (ChannelMonitor.onStatusChange s).status ∧
    (ChannelMonitor.initialReconcile s).lastMessage =
      (ChannelMonitor.onStatusChange s).lastMessage ∧
    Option.map ChannelError.code (ChannelMonitor.initialReconcile s).error =
      Option.map ChannelError.code (ChannelMonitor.onStatusChange s).error ∧
    (¬(s = ChannelStatus.CHANNEL_ERROR ∨ s = ChannelStatus.TIMED_OUT) →
      ChannelMonitor.initialReconcile s = ChannelMonitor.onStatusChange s) ∧
    ((s = ChannelStatus.CHANNEL_ERROR ∨ s = ChannelStatus.TIMED_OUT) →
      Option.map ChannelError.message (ChannelMonitor.initialReconcile s).error =
        some ("Initial channel status: " ++ s.str) ∧
      Option.map ChannelError.message (ChannelMonitor.onStatusChange s).error =
        some ("Channel status: " ++ s.str)) := by
  cases s <;> decide

/-- Claim C6 witness: concrete instantiation at status CLOSED, where the
two definitions agree exactly. -/
theorem initialReconcile_matches_statusChange_witness :
    ChannelMonitor.initialReconcile ChannelStatus.CLOSED =
      ChannelMonitor.onStatusChange ChannelStatus.CLOSED :=
  (initialReconcile_matches_statusChange ChannelStatus.CLOSED).2.2.2.1 (by decide)

/-- Claim C7: a data-event callback preserves the status, clears the error,
and stores the payload with a receipt time that is at least the time
observed just before the callback fired. -/
theorem channelMonitor_dataEvent_frame (st : ChannelMonitorState)
    (p : RealtimePayload) (tBefore t : Nat) (h : tBefore ≤ t) :
    (ChannelMonitor.step st (ChannelEvent.dataEvent p t)).status = st.status ∧
    (ChannelMonitor.step st (ChannelEvent.dataEvent p t)).error = none ∧
    ∃ lm, (ChannelMonitor.step st (ChannelEvent.dataEvent p t)).lastMessage = some lm ∧
      lm.message = p ∧ tBefore ≤ lm.receivedAt := by
  refine ⟨rfl, rfl, ⟨{ message := p, receivedAt := t }, rfl, rfl, h⟩⟩

/-- Claim C7 witness: concrete instantiation with the sample payload at
times 3 ≤ 5. -/
theorem channelMonitor_dataEvent_frame_witness :
    (ChannelMonitor.step ChannelMonitor.initialState
        (ChannelEvent.dataEvent samplePayload 5)).status =
      ChannelMonitor.initialState.status ∧
    (ChannelMonitor.step ChannelMonitor.initialState
        (ChannelEvent.dataEvent samplePayload 5)).error = none ∧
    ∃ lm, (ChannelMonitor.step ChannelMonitor.initialState
        (ChannelEvent.dataEvent samplePayload 5)).lastMessage = some lm ∧
      lm.message = samplePayload ∧ 3 ≤ lm.receivedAt :=
  channelMonitor_dataEvent_frame ChannelMonitor.initialState samplePayload 3 5
    (by decide)

/-- The timer provider world: a fresh-handle counter and the list of
currently active interval handles (`setInterval` registers one,
`clearInterval` cancels it). -/
structure TimerWorld where
  nextId : Nat
  active : List Nat
deriving DecidableEq

/-- `timerProvider.setInterval`: allocates a fresh handle and makes it
active, returning the handle. -/
def TimerWorld.setIntervalCall (w : TimerWorld) : Nat × TimerWorld :=
  (w.nextId, { nextId := w.nextId + 1, active := w.active ++ [w.nextId] })

/-- `timerProvider.clearInterval`: cancels the given handle. -/
def TimerWorld.clearIntervalCall (w : TimerWorld) (h : Nat) : TimerWorld :=
  { w with active := w.active.filter (fun x => x != h) }

/-- The fields of a `Poller` instance that change over its lifetime:
`timer` (the stored handle) and `isRunning`. -/
structure PollerState where
  timer : Option Nat
  isRunning : Bool
deriving DecidableEq

/-- A freshly constructed poller: `timer = null`, `isRunning = false`. -/
def Poller.initial : PollerState := { timer := none, isRunning := false }

/-- The empty timer world paired with the fresh poller. -/
def Poller.initialWorld : TimerWorld := { nextId := 0, active := [] }

/-- `Poller.scheduleNext`: returns early when not running, otherwise
stores a new interval handle. -/
def Poller.scheduleNext (p : PollerState) (w : TimerWorld) : PollerState × TimerWorld :=
  if p.isRunning then
    let hw := w.setIntervalCall
    ({ p with timer := some hw.1 }, hw.2)
  else
    (p, w)

/-- `Poller.start`: when not running, set `isRunning` and schedule. -/
def Poller.start (p : PollerState) (w : TimerWorld) : PollerState × TimerWorld :=
  if p.isRunning then (p, w)
  else Poller.scheduleNext { p with isRunning := true } w

/-- `Poller.stop`: when a timer is stored, clear it and reset both fields. -/
def Poller.stop (p : PollerState) (w : TimerWorld) : PollerState × TimerWorld :=
  match p.timer with
  | some h => ({ timer := none, isRunning := false }, w.clearIntervalCall h)
  | none => (p, w)

/-- A lifecycle call on the poller. -/
inductive PollerOp
  | start
  | stop
deriving DecidableEq

/-- Applying one lifecycle call. -/
def Poller.applyOp : PollerState × TimerWorld → PollerOp → PollerState × TimerWorld
  | (p, w), PollerOp.start => Poller.start p w
  | (p, w), PollerOp.stop => Poller.stop p w

/-- Running a sequence of lifecycle calls from a fresh poller and an empty
timer world. -/
def Poller.runOps (ops : List PollerOp) : PollerState × TimerWorld :=
  ops.foldl Poller.applyOp (Poller.initial, Poller.initialWorld)

/-- The runtime invariant of the poller: the stored handle is present iff
running, and the world's active handles are exactly the stored one. -/
def PollerInv (s : PollerState × TimerWorld) : Prop :=
  s.1.timer.isSome = s.1.isRunning ∧
  (∀ h, s.1.timer = some h → s.2.active = [h]) ∧
  (s.1.timer = none → s.2.active = [])

theorem pollerInv_initial : PollerInv (Poller.initial, Poller.initialWorld) := by
  refine ⟨rfl, ?_, fun _ => rfl⟩
  intro h hh
  simp [Poller.initial] at hh

theorem pollerInv_step (s : PollerState × TimerWorld) (op : PollerOp)
    (hinv : PollerInv s) : PollerInv (Poller.applyOp s op) := by
  obtain ⟨p, w⟩ := s
  obtain ⟨h1, h2, h3⟩ := hinv
  cases op with
  | start =>
    cases hr : p.isRunning with
    | true =>
      simp only [Poller.applyOp, Poller.start, hr, if_true]
      exact ⟨h1, h2, h3⟩
    | false =>
      have htimer : p.timer = none := by
        cases ht : p.timer with
        | none => rfl
        | some x =>
          rw [ht, hr] at h1
          simp at h1
      have hact : w.active = [] := h3 htimer
      simp only [Poller.applyOp, Poller.start, hr, Bool.false_eq_true, if_false,
        Poller.scheduleNext, TimerWorld.setIntervalCall, if_true, hact]
      refine ⟨rfl, ?_, ?_⟩
      · intro h hh
        simp only [Option.some.injEq] at hh
        simp [hh]
      · intro hh
        simp at hh
  | stop =>
    simp only [Poller.applyOp, Poller.stop]
    cases ht : p.timer with
    | none => exact ⟨h1, h2, h3⟩
    | some h =>
      have hact : w.active = [h] := h2 h ht
      simp only [TimerWorld.clearIntervalCall, hact]
      refine ⟨rfl, ?_, ?_⟩
      · intro h' hh
        simp at hh
      · intro _
        simp [List.filter]

theorem pollerInv_runOps (ops : List PollerOp) : PollerInv (Poller.runOps ops) := by
  unfold Poller.runOps
  induction ops using List.reverseRecOn with
  | nil => exact pollerInv_initial
  | append_singleton xs op ih =>
    rw [List.foldl_append]
    exact pollerInv_step _ op ih

/-- Claim C5: after every sequence of start/stop calls the stored timer
handle is present iff `isRunning`, at most one live handle exists;
three consecutive `start()` calls leave exactly one active scheduled
callback, and `start()` then `stop()` leaves zero. -/
theorem poller_timer_invariant (ops : List PollerOp) :
    ((Poller.runOps ops).1.timer.isSome = (Poller.runOps ops).1.isRunning) ∧
    ((Poller.runOps ops).2.active.length ≤ 1) ∧
    (∀ h, (Poller.runOps ops).1.timer = some h → (Poller.runOps ops).2.active = [h]) ∧
    ((Poller.runOps ops).1.timer = none → (Poller.runOps ops).2.active = []) ∧
    (Poller.runOps [PollerOp.start, PollerOp.start, PollerOp.start]).2.active.length = 1 ∧
    (Poller.runOps [PollerOp.start, PollerOp.stop]).2.active.length = 0 := by
  obtain ⟨h1, h2, h3⟩ := pollerInv_runOps ops
  refine ⟨h1, ?_, h2, h3, by decide, by decide⟩
  cases ht : (Poller.runOps ops).1.timer with
  | none => simp [h3 ht]
  | some h => simp [h2 h ht]

/-- Claim C5 witness: concrete instantiation on the call sequence
[start, start, stop, start]. -/
theorem poller_timer_invariant_witness :
    (Poller.runOps [PollerOp.start, PollerOp.start, PollerOp.stop,
        PollerOp.start]).2.active =
      [(Poller.runOps [PollerOp.start, PollerOp.start, PollerOp.stop,
        PollerOp.start]).1.timer.getD 0] := by
  have h := (poller_timer_invariant
    [PollerOp.start, PollerOp.start, PollerOp.stop, PollerOp.start]).2.2.1
  have ht : (Poller.runOps [PollerOp.start, PollerOp.start, PollerOp.stop,
      PollerOp.start]).1.timer = some 1 := by decide
  rw [h 1 ht, ht]
  rfl

/-- A plain JavaScript `Error` value: only its message is relevant here. -/
structure JsError where
  message : String
deriving DecidableEq

/-- A value thrown by (or rejecting) a refresh operation: either already an
`Error`, or any other value together with its `String(value)` form. -/
inductive ThrownValue
  | errVal (e : JsError)
  | nonError (stringForm : String)
deriving DecidableEq

/-- The catch-block conversion in `scheduleNext`:
`error instanceof Error ? error : new Error(String(error))`. -/
def normalizeThrown : ThrownValue → JsError
  | ThrownValue.errVal e => e
  | ThrownValue.nonError s => { message := s }

/-- The outcome of one invocation of the refresh operation. -/
inductive RefreshOutcome
  | ok
  | threw (v : ThrownValue)
deriving DecidableEq

/-- What a run of timer firings produced: the poller and timer world
afterwards, how many times the refresh operation was invoked, and the
errors delivered to the `onError` callback, in order. -/
structure PollerTickRun where
  poller : PollerState
  world : TimerWorld
  refreshInvocations : Nat
  errorsDelivered : List JsError
deriving DecidableEq

/-- Running the interval callback once per listed outcome.  A firing
happens only while some timer handle is active; the callback body awaits
the refresh operation inside try/catch, normalizes anything thrown and
passes it to `onError?.`, and never rethrows, so it touches neither the
poller fields nor the timer world. -/
def Poller.runTicks (hasOnError : Bool) (p : PollerState) (w : TimerWorld) :
    List RefreshOutcome → PollerTickRun
  | [] => { poller := p, world := w, refreshInvocations := 0, errorsDelivered := [] }
  | outcome :: rest =>
    if w.active.isEmpty then
      { poller := p, world := w, refreshInvocations := 0, errorsDelivered := [] }
    else
      let delivered : List JsError :=
        match outcome with
        | RefreshOutcome.ok => []
        | RefreshOutcome.threw v => if hasOnError then [normalizeThrown v] else []
      let r := Poller.runTicks hasOnError p w rest
      { poller := r.poller, world := r.world,
        refreshInvocations := r.refreshInvocations + 1,
        errorsDelivered := delivered ++ r.errorsDelivered }

/-- The error an outcome delivers to a configured `onError` callback. -/
def deliveredError : RefreshOutcome → Option JsError
  | RefreshOutcome.ok => none
  | RefreshOutcome.threw v => some (normalizeThrown v)

/-- Claim C3: with an `onError` callback configured and an active timer,
every refresh failure is normalized (a non-Error thrown value becomes an
Error whose message is its string form) and delivered to `onError`, the
poller state and the timer world are untouched so `isRunning` stays true
and the handle stays active, and every listed tick still invokes the
refresh operation. -/
theorem poller_tick_error_isolation (p : PollerState) (w : TimerWorld)
    (outcomes : List RefreshOutcome) (hact : w.active ≠ []) :
    (Poller.runTicks true p w outcomes).poller = p ∧
    (Poller.runTicks true p w outcomes).world = w ∧
    (Poller.runTicks true p w outcomes).refreshInvocations = outcomes.length ∧
    (Poller.runTicks true p w outcomes).errorsDelivered =
      outcomes.filterMap deliveredError ∧
    (∀ s, normalizeThrown (ThrownValue.nonError s) = { message := s }) ∧
    (∀ e, normalizeThrown (ThrownValue.errVal e) = e) := by
  have hempty : w.active.isEmpty = false := by
    cases hA : w.active with
    | nil => exact absurd hA hact
    | cons x xs => rfl
  refine ⟨?_, ?_, ?_, ?_, fun _ => rfl, fun _ => rfl⟩ <;>
  · induction outcomes with
    | nil => rfl
    | cons o rest ih =>
      cases o <;>
        simp [Poller.runTicks, hempty, ih, deliveredError]

/-- Claim C3 witness: one tick whose refresh rejects with the string
"boom" delivers exactly one error, with message "boom", and leaves the
running poller and its single active handle in place. -/
theorem poller_tick_error_isolation_witness :
    (Poller.runTicks true { timer := some 0, isRunning := true }
        { nextId := 1, active := [0] }
        [RefreshOutcome.threw (ThrownValue.nonError "boom")]).poller =
      { timer := some 0, isRunning := true } ∧
    (Poller.runTicks true { timer := some 0, isRunning := true }
        { nextId := 1, active := [0] }
        [RefreshOutcome.threw (ThrownValue.nonError "boom")]).world =
      { nextId := 1, active := [0] } ∧
    (Poller.runTicks true { timer := some 0, isRunning := true }
        { nextId := 1, active := [0] }
        [RefreshOutcome.threw (ThrownValue.nonError "boom")]).refreshInvocations = 1 ∧
    (Poller.runTicks true { timer := some 0, isRunning := true }
        { nextId := 1, active := [0] }
        [RefreshOutcome.threw (ThrownValue.nonError "boom")]).errorsDelivered =
      [RefreshOutcome.threw (ThrownValue.nonError "boom")].filterMap deliveredError ∧
    (∀ s, normalizeThrown (ThrownValue.nonError s) = { message := s }) ∧
    (∀ e, normalizeThrown (ThrownValue.errVal e) = e) :=
  poller_tick_error_isolation { timer := some 0, isRunning := true }
    { nextId := 1, active := [0] }
    [RefreshOutcome.threw (ThrownValue.nonError "boom")] (by decide)

/-- The raw probe result (`NetInfoState`): nullable connectivity flag. -/
structure NetInfoState where
  isConnected : Option Bool
  type : NetworkConnectionType
  isInternetReachable : Option Bool
deriving DecidableEq

/-- A `NetworkMonitor` instance: whether an unsubscribe handle is held,
cumulative counts of probe fetches and listener registrations performed,
and the published `NetworkState`. -/
structure NetworkMonitorModel where
  hasUnsubscribe : Bool
  probeCount : Nat
  listenerCount : Nat
  state : NetworkState
deriving DecidableEq

/-- A freshly constructed network monitor. -/
def NetworkMonitor.initial : NetworkMonitorModel :=
  { hasUnsubscribe := false, probeCount := 0, listenerCount := 0,
    state := { isConnected := false,
               connectionType := NetworkConnectionType.unknown,
               isInternetReachable := none } }

/-- `NetworkMonitor.updateState`: normalize (`isConnected ?? false`) and
replace the whole published state. -/
def NetworkMonitor.updateState (m : NetworkMonitorModel) (s : NetInfoState) :
    NetworkMonitorModel :=
  { m with state := { isConnected := s.isConnected.getD false,
                      connectionType := s.type,
                      isInternetReachable := s.isInternetReachable } }

/-- `NetworkMonitor.startMonitoring`, awaited to completion with `probe`
as the initial fetch result: a no-op when an unsubscribe handle is held,
otherwise one fetch, one state update, one listener registration. -/
def NetworkMonitor.startMonitoring (m : NetworkMonitorModel) (probe : NetInfoState) :
    NetworkMonitorModel :=
  if m.hasUnsubscribe then m
  else
    let m1 := NetworkMonitor.updateState { m with probeCount := m.probeCount + 1 } probe
    { m1 with listenerCount := m1.listenerCount + 1, hasUnsubscribe := true }

/-- `NetworkMonitor.stopMonitoring`: drop the unsubscribe handle if held. -/
def NetworkMonitor.stopMonitoring (m : NetworkMonitorModel) : NetworkMonitorModel :=
  if m.hasUnsubscribe then { m with hasUnsubscribe := false } else m

/-- Claim C8: a second `startMonitoring` without an intervening stop is a
no-op — the state after two calls equals the state after one — and from a
fresh monitor the two calls together perform exactly one probe fetch and
register exactly one push listener. -/
theorem networkMonitor_double_start (m : NetworkMonitorModel)
    (p1 p2 : NetInfoState) :
    NetworkMonitor.startMonitoring (NetworkMonitor.startMonitoring m p1) p2 =
      NetworkMonitor.startMonitoring m p1 ∧
    (NetworkMonitor.startMonitoring
        (NetworkMonitor.startMonitoring NetworkMonitor.initial p1) p2).probeCount = 1 ∧
    (NetworkMonitor.startMonitoring
        (NetworkMonitor.startMonitoring NetworkMonitor.initial p1) p2).listenerCount = 1 := by
  refine ⟨?_, ?_, ?_⟩
  · by_cases hm : m.hasUnsubscribe
    · simp [NetworkMonitor.startMonitoring, hm]
    · simp [NetworkMonitor.startMonitoring, NetworkMonitor.updateState, hm]
  · simp [NetworkMonitor.startMonitoring, NetworkMonitor.updateState,
      NetworkMonitor.initial]
  · simp [NetworkMonitor.startMonitoring, NetworkMonitor.updateState,
      NetworkMonitor.initial]

/-- The settled outcome of a JavaScript promise. -/
inductive PromiseOutcome (α : Type)
  | resolved (a : α)
  | rejected (v : ThrownValue)
deriving DecidableEq

/-- The observable effect of `ChannelMonitor.stopMonitoring`, given the
settled outcome of `channel.unsubscribe()`.  The source discards the
promise with the `void` operator, attaching no rejection handler, so a
rejection is left unhandled; no state field is written and no error
callback exists on this path. -/
structure StopMonitoringEffect where
  unhandledRejections : List ThrownValue
  errorCallbackCalls : List JsError
  stateChanged : Bool
deriving DecidableEq

/-- `ChannelMonitor.stopMonitoring` as a function of the unsubscribe
promise outcome. -/
def ChannelMonitor.stopMonitoring (unsub : PromiseOutcome String) :
    StopMonitoringEffect :=
  { unhandledRejections :=
      match unsub with
      | PromiseOutcome.rejected v => [v]
      | PromiseOutcome.resolved _ => [],
    errorCallbackCalls := [],
    stateChanged := false }

/-- `NetworkMonitor.startMonitoring` with a fallible probe: when the
monitor is not yet monitoring and `netInfo.fetch()` rejects, the `await`
rethrows, so the rejection propagates to the caller of
`startMonitoring` (the returned promise rejects) instead of being turned
into state or a callback invocation. -/
def NetworkMonitor.startMonitoringE (m : NetworkMonitorModel)
    (probe : PromiseOutcome NetInfoState) :
    Except ThrownValue NetworkMonitorModel :=
  if m.hasUnsubscribe then Except.ok m
  else
    match probe with
    | PromiseOutcome.rejected v => Except.error v
    | PromiseOutcome.resolved s => Except.ok (NetworkMonitor.startMonitoring m s)

/-- Claim C9 (counterexample): a rejected `unsubscribe()` during
`ChannelMonitor.stopMonitoring` is left as an unhandled rejection — it is
neither converted into observable state nor delivered to any error
callback. -/
theorem async_rejection_cex :
    (ChannelMonitor.stopMonitoring (PromiseOutcome.rejected
        (ThrownValue.nonError "unsubscribe failed"))).unhandledRejections ≠ [] ∧
    (ChannelMonitor.stopMonitoring (PromiseOutcome.rejected
        (ThrownValue.nonError "unsubscribe failed"))).errorCallbackCalls = [] ∧
    (ChannelMonitor.stopMonitoring (PromiseOutcome.rejected
        (ThrownValue.nonError "unsubscribe failed"))).stateChanged = false := by
  refine ⟨?_, rfl, rfl⟩
  intro h
  simp [ChannelMonitor.stopMonitoring] at h

/-- Claim C9 (amended): only the Poller's refresh tick catches its
rejection and hands the normalized error to the configured `onError`
callback; a ChannelMonitor unsubscribe rejection is discarded unhandled
by the `void` operator, and a NetworkMonitor probe rejection propagates
to the caller of `startMonitoring`, neither becoming state nor reaching
an error callback. -/
theorem async_rejection_disposition (v : ThrownValue) (m : NetworkMonitorModel)
    (p : PollerState) (w : TimerWorld)
    (hm : m.hasUnsubscribe = false) (hact : w.active ≠ []) :
    (ChannelMonitor.stopMonitoring (PromiseOutcome.rejected v)).unhandledRejections
        = [v] ∧
    (ChannelMonitor.stopMonitoring (PromiseOutcome.rejected v)).errorCallbackCalls
        = [] ∧
    (ChannelMonitor.stopMonitoring (PromiseOutcome.rejected v)).stateChanged
        = false ∧
    NetworkMonitor.startMonitoringE m (PromiseOutcome.rejected v) =
        Except.error v ∧
    (Poller.runTicks true p w [RefreshOutcome.threw v]).errorsDelivered =
        [normalizeThrown v] := by
  have hempty : w.active.isEmpty = false := by
    cases hA : w.active with
    | nil => exact absurd hA hact
    | cons x xs => rfl
  refine ⟨rfl, rfl, rfl, ?_, ?_⟩
  · simp [NetworkMonitor.startMonitoringE, hm]
  · simp [Poller.runTicks, hempty]

/-- Claim C9 witness: concrete instantiation with a string rejection, the
fresh network monitor, and a running poller with one active handle. -/
theorem async_rejection_disposition_witness :
    (ChannelMonitor.stopMonitoring (PromiseOutcome.rejected
        (ThrownValue.nonError "boom"))).unhandledRejections =
      [ThrownValue.nonError "boom"] ∧
    (ChannelMonitor.stopMonitoring (PromiseOutcome.rejected
        (ThrownValue.nonError "boom"))).errorCallbackCalls = [] ∧
    (ChannelMonitor.stopMonitoring (PromiseOutcome.rejected
        (ThrownValue.nonError "boom"))).stateChanged = false ∧
    NetworkMonitor.startMonitoringE NetworkMonitor.initial
        (PromiseOutcome.rejected (ThrownValue.nonError "boom")) =
      Except.error (ThrownValue.nonError "boom") ∧
    (Poller.runTicks true { timer := some 0, isRunning := true }
        { nextId := 1, active := [0] }
        [RefreshOutcome.threw (ThrownValue.nonError "boom")]).errorsDelivered =
      [normalizeThrown (ThrownValue.nonError "boom")] :=
  async_rejection_disposition (ThrownValue.nonError "boom")
    NetworkMonitor.initial { timer := some 0, isRunning := true }
    { nextId := 1, active := [0] } rfl (by decide)

/-- A JavaScript value as it matters to `assertNonNull`. -/
inductive JSValue
  | jsNull
  | jsUndefined
  | str (s : String)
  | num (n : Int)
  | bool (b : Bool)
deriving DecidableEq

/-- Field lookup on a JS object: a missing property reads as undefined. -/
def jsLookup (input : List (String × JSValue)) (field : String) : JSValue :=
  match input.find? (fun kv => kv.1 == field) with
  | some kv => kv.2
  | none => JSValue.jsUndefined

/-- A single-quote character, as interpolated around the field name. -/
def squote : String := String.mk [Char.ofNat 39]

/-- `assertNonNull`: throws when the value is null or undefined. -/
def assertNonNull (value : JSValue) (fieldName : String) : Except JsError Unit :=
  if value = JSValue.jsNull ∨ value = JSValue.jsUndefined then
    Except.error { message := fieldName ++ " must be non-null" }
  else
    Except.ok ()

/-- The one backend query `update` issues when the assertion passes. -/
structure UpdateQuery where
  table : String
  input : List (String × JSValue)
  eqField : String
  eqValue : JSValue
deriving DecidableEq

/-- `SupabaseQueryManager.update` up to the point the backend query is
issued: read `input[fieldId]`, assert it non-null (throwing before any
backend interaction), then build the update-with-eq-filter query. -/
def SupabaseQueryManager.update (collection : String)
    (input : List (String × JSValue)) (fieldId : String) :
    Except JsError UpdateQuery :=
  let idValue := jsLookup input fieldId
  match assertNonNull idValue ("update(): " ++ squote ++ fieldId ++ squote) with
  | Except.error e => Except.error e
  | Except.ok _ =>
      Except.ok { table := collection, input := input, eqField := fieldId,
                  eqValue := idValue }

/-- Claim C10: when `input[fieldId]` is null or undefined, `update` throws
an error whose message contains "must be non-null" before any backend
query is issued; when it is non-null the assertion passes and the update
query is issued. -/
theorem update_nonNull_guard (collection : String)
    (input : List (String × JSValue)) (fieldId : String) :
    ((jsLookup input fieldId = JSValue.jsNull ∨
        jsLookup input fieldId = JSValue.jsUndefined) →
      ∃ e, SupabaseQueryManager.update collection input fieldId = Except.error e ∧
        ∃ pre post, e.message = pre ++ "must be non-null" ++ post) ∧
    (¬(jsLookup input fieldId = JSValue.jsNull ∨
        jsLookup input fieldId = JSValue.jsUndefined) →
      SupabaseQueryManager.update collection input fieldId =
        Except.ok { table := collection, input := input, eqField := fieldId,
                    eqValue := jsLookup input fieldId }) := by
  constructor
  · intro hnull
    refine ⟨{ message := "update(): " ++ squote ++ fieldId ++ squote ++
        " must be non-null" },
      ?_, "update(): " ++ squote ++ fieldId ++ squote ++ " ", "", ?_⟩
    · simp only [SupabaseQueryManager.update, assertNonNull, hnull, if_true]
    · simp [String.append_assoc]
  · intro hnn
    simp only [SupabaseQueryManager.update, assertNonNull, hnn, if_false]

/-- Claim C10 witness: with `id` missing from the input the call fails
with the guard message; with `id = 7` it issues the filtered update. -/
theorem update_nonNull_guard_witness :
    (∃ e, SupabaseQueryManager.update "todos" [] "id" = Except.error e ∧
      ∃ pre post, e.message = pre ++ "must be non-null" ++ post) ∧
    SupabaseQueryManager.update "todos" [("id", JSValue.num 7)] "id" =
      Except.ok { table := "todos", input := [("id", JSValue.num 7)],
                  eqField := "id", eqValue := JSValue.num 7 } := by
  constructor
  · exact (update_nonNull_guard "todos" [] "id").1 (by decide)
  · have h := (update_nonNull_guard "todos" [("id", JSValue.num 7)] "id").2
      (by decide)
    rw [h]
    rfl
